import Mathlib

/-!
Verification development for the AskERP chat widget
(`askerp/public/js/chat_widget.js`): the conversation turn engine
(submit classification, streaming poll loop, state release) and the
incremental markdown renderer, shallowly embedded as pure Lean
functions over an explicit widget state.

JavaScript strings are modelled as `String`/`List Char`; JS falsy
string fields (`""`/absent) are modelled as the empty string or as
`Option`, as noted at each definition.  Each definition's doc comment
names the source function it embeds.
-/

/- ===== Generic character/string helpers ===== -/

/-- Whitespace characters recognised by the embedding of JS `trim` /
`\s` (ASCII subset: space, tab, newline, carriage return). -/
def isSpaceChar (c : Char) : Bool :=
  c = ' ' || c = '\t' || c = '\n' || c = '\r'

/-- JS `\w` word characters: ASCII letters, digits, underscore. -/
def isWordChar (c : Char) : Bool :=
  c.isAlphanum || c = '_'

/-- `leadsWith p s` is true when `p` is an initial segment of `s`. -/
def leadsWith : List Char → List Char → Bool
  | [], _ => true
  | _ :: _, [] => false
  | p :: ps, c :: cs => p = c && leadsWith ps cs

/-- `hasSub pat s` is true when `pat` occurs contiguously in `s`. -/
def hasSub (pat : List Char) : List Char → Bool
  | [] => leadsWith pat []
  | c :: cs => leadsWith pat (c :: cs) || hasSub pat cs

/-- `containsSub s pat`: `pat` occurs as a contiguous substring of `s`. -/
def containsSub (s pat : String) : Bool :=
  hasSub pat.data s.data

/-- Embedding of JS `String.prototype.trim` (ASCII whitespace). -/
def trimChars (cs : List Char) : List Char :=
  ((cs.dropWhile isSpaceChar).reverse.dropWhile isSpaceChar).reverse

/-- `trimString` wraps `trimChars` for `String`. -/
def trimString (s : String) : String :=
  String.mk (trimChars s.data)

/-- Embedding of JS `String.prototype.split` on a single character:
`"a|b".split("|") = ["a","b"]`, `"".split("|") = [""]`. -/
def splitOnChar (sep : Char) : List Char → List (List Char)
  | [] => [[]]
  | c :: cs =>
    let r := splitOnChar sep cs
    if c = sep then [] :: r
    else
      match r with
      | [] => [[c]]
      | h :: t => (c :: h) :: t

/-- Joins pieces with a separator, inverse of `splitOnChar` on
newline for line-wise passes. -/
def joinWith (sep : List Char) : List (List Char) → List Char
  | [] => []
  | [l] => l
  | l :: ls => l ++ sep ++ joinWith sep ls

/-- Splits `s` at the LAST occurrence of `pat`, returning the text
before it and the text after it (the occurrence itself is dropped).
Used for the backtracking behaviour of greedy `.*` / `[^\n]+` before
a required literal in the JS regexes. -/
def splitAtLast (pat : List Char) : List Char → Option (List Char × List Char)
  | [] => if pat.isEmpty then some ([], []) else none
  | c :: cs =>
    match splitAtLast pat cs with
    | some (pre, post) => some (c :: pre, post)
    | none =>
      if leadsWith pat (c :: cs) then some ([], (c :: cs).drop pat.length)
      else none

/-- One pass of a JS `String.replace(regex-with-g, ...)`: scan left to
right; where the matcher fires, emit its replacement and resume after
the match, otherwise copy one character.  `fuel` bounds the number of
steps; callers pass the input length, which suffices because every
matcher consumes at least one character. -/
def scanRepl (f : List Char → Option (List Char × List Char)) : Nat → List Char → List Char
  | 0, cs => cs
  | _, [] => []
  | fuel + 1, c :: cs =>
    match f (c :: cs) with
    | some (repl, rest) => repl ++ scanRepl f fuel rest
    | none => c :: scanRepl f fuel cs

/-- Runs `scanRepl` with fuel equal to the input length. -/
def runRepl (f : List Char → Option (List Char × List Char)) (cs : List Char) : List Char :=
  scanRepl f cs.length cs

/-- Applies a per-line transform, embedding the JS `^...$` multiline
anchored replaces (lines are the `\n`-separated segments). -/
def linewise (f : List Char → List Char) (cs : List Char) : List Char :=
  joinWith ['\n'] ((splitOnChar '\n' cs).map f)

/- ===== Markdown renderer (chat_widget.js renderMarkdown) ===== -/

/-- Embedding of `escapeHtml` (chat_widget.js): the
`div.textContent = str; div.innerHTML` round trip, which escapes the
markup-significant ASCII characters `&`, `<`, `>` in a text node. -/
def escapeHtml (cs : List Char) : List Char :=
  cs.foldr
    (fun c acc =>
      if c = '&' then "&amp;".data ++ acc
      else if c = '<' then "&lt;".data ++ acc
      else if c = '>' then "&gt;".data ++ acc
      else c :: acc) []

/-- Finds the first occurrence of three consecutive backticks,
returning the content before them and the rest after them. -/
def findTriple : List Char → Option (List Char × List Char)
  | [] => none
  | c :: cs =>
    if leadsWith ['`', '`', '`'] (c :: cs) then some ([], cs.drop 2)
    else
      match findTriple cs with
      | some (pre, rest) => some (c :: pre, rest)
      | none => none

/-- Fenced code block pass: JS
`html.replace(/` ++ "```" ++ `(\w*)\n([\s\S]*?)` ++ "```" ++ `/g, "<pre><code>$2</code></pre>")`.
The language word is captured but unused, exactly as in the source. -/
def matchCodeBlock (cs : List Char) : Option (List Char × List Char) :=
  if leadsWith ['`', '`', '`'] cs then
    let after := cs.drop 3
    let rest1 := after.dropWhile isWordChar
    match rest1 with
    | '\n' :: rest2 =>
      match findTriple rest2 with
      | some (code, rest3) =>
        some ("<pre><code>".data ++ code ++ "</code></pre>".data, rest3)
      | none => none
    | _ => none
  else none

/-- Inline code pass: JS `` html.replace(/`([^`]+)`/g, "<code>$1</code>") ``.
The content is any nonempty run of non-backtick characters (which may
include newlines, as `[^` ++ "`" ++ `]` does in JS). -/
def matchInlineCode (cs : List Char) : Option (List Char × List Char) :=
  match cs with
  | '`' :: rest =>
    let content := rest.takeWhile (· ≠ '`')
    let rest1 := rest.dropWhile (· ≠ '`')
    if content.isEmpty then none
    else
      match rest1 with
      | '`' :: rest2 => some ("<code>".data ++ content ++ "</code>".data, rest2)
      | _ => none
  | _ => none

/-- One table "row unit" of the JS table regex `(?:\|[^\n]+\|\n?)`:
a pipe, at least one non-newline character (greedy, so the closing
pipe is the last pipe on the line), a pipe, an optional newline.
Returns the consumed text (verbatim) and the rest. -/
def matchRowUnit (cs : List Char) : Option (List Char × List Char) :=
  match cs with
  | '|' :: rest =>
    let seg := rest.takeWhile (· ≠ '\n')
    let tail := rest.dropWhile (· ≠ '\n')
    match splitAtLast ['|'] seg with
    | some (content, after) =>
      if content.isEmpty then none
      else if after.isEmpty then
        match tail with
        | '\n' :: t2 => some ('|' :: content ++ ['|', '\n'], t2)
        | _ => some ('|' :: content ++ ['|'], tail)
      else some ('|' :: content ++ ['|'], after ++ tail)
    | none => none
  | _ => none

/-- One or more consecutive row units (the `+` of the table regex). -/
def matchUnits : Nat → List Char → Option (List Char × List Char)
  | 0, _ => none
  | fuel + 1, cs =>
    match matchRowUnit cs with
    | some (txt, rest) =>
      match matchUnits fuel rest with
      | some (txt2, rest2) => some (txt ++ txt2, rest2)
      | none => some (txt, rest)
    | none => none

/-- Character class of the separator-row test `/^\|[\s-:|]+\|$/`:
whitespace, hyphen, colon, pipe. -/
def sepRowChar (c : Char) : Bool :=
  isSpaceChar c || c = '-' || c = ':' || c = '|'

/-- JS `/^\|[\s-:|]+\|$/.test(row)`: a pipe, one or more separator
characters, a final pipe. -/
def isSepRow (row : List Char) : Bool :=
  match row with
  | '|' :: rest =>
    decide (rest.getLast? = some '|') && !rest.dropLast.isEmpty
      && rest.dropLast.all sepRowChar
  | _ => false

/-- JS `row.split("|").filter(c => c.trim() !== "")`. -/
def rowCells (row : List Char) : List (List Char) :=
  (splitOnChar '|' row).filter (fun c => !(trimChars c).isEmpty)

/-- One rendered cell `<tag>{cell.trim()}</tag>`. -/
def tableCellHtml (tag : String) (cell : List Char) : List Char :=
  ("<" ++ tag ++ ">").data ++ trimChars cell ++ ("</" ++ tag ++ ">").data

/-- The `rows.forEach((row, i) => ...)` body: separator rows are
skipped (but still counted by `i`); row index 0 uses `th`, all later
rows `td`. -/
def tableRowsHtml : Nat → List (List Char) → List Char
  | _, [] => []
  | i, row :: rs =>
    (if isSepRow row then []
     else
       let tag := if i = 0 then "th" else "td"
       "<tr>".data
         ++ (rowCells row).foldr (fun c acc => tableCellHtml tag c ++ acc) []
         ++ "</tr>".data)
      ++ tableRowsHtml (i + 1) rs

/-- The replacer function of the table pass: trim the matched block,
split into nonblank lines, return it unchanged when fewer than two
rows, otherwise build `<table>...</table>`. -/
def tableReplacer (t : List Char) : List Char :=
  let rows := (splitOnChar '\n' (trimChars t)).filter (fun r => !(trimChars r).isEmpty)
  if rows.length < 2 then t
  else "<table>".data ++ tableRowsHtml 0 rows ++ "</table>".data

/-- Table pass: JS `html.replace(/((?:\|[^\n]+\|\n?)+)/g, table => ...)`. -/
def matchTable (cs : List Char) : Option (List Char × List Char) :=
  match matchUnits cs.length cs with
  | some (txt, rest) => some (tableReplacer txt, rest)
  | none => none

/-- Heading pass `^### (.+)$` (multiline), per line. -/
def h3Line (line : List Char) : List Char :=
  match line with
  | '#' :: '#' :: '#' :: ' ' :: rest =>
    if rest.isEmpty then line else "<h3>".data ++ rest ++ "</h3>".data
  | _ => line

/-- Heading pass `^## (.+)$` (multiline), per line. -/
def h2Line (line : List Char) : List Char :=
  match line with
  | '#' :: '#' :: ' ' :: rest =>
    if rest.isEmpty then line else "<h2>".data ++ rest ++ "</h2>".data
  | _ => line

/-- Finds the lazy close of `\*\*(.+?)\*\*`: at least one non-newline
content character, then the nearest following `**`. -/
def findBoldClose : List Char → Option (List Char × List Char)
  | [] => none
  | c :: cs =>
    if c = '\n' then none
    else if leadsWith ['*', '*'] cs then some ([c], cs.drop 2)
    else
      match findBoldClose cs with
      | some (content, rest) => some (c :: content, rest)
      | none => none

/-- Bold pass: JS `html.replace(/\*\*(.+?)\*\*/g, "<strong>$1</strong>")`. -/
def matchBold (cs : List Char) : Option (List Char × List Char) :=
  if leadsWith ['*', '*'] cs then
    match findBoldClose (cs.drop 2) with
    | some (content, rest) =>
      some ("<strong>".data ++ content ++ "</strong>".data, rest)
    | none => none
  else none

/-- Finds the lazy close of `\*(.+?)\*`: at least one non-newline
content character, then the nearest following `*`. -/
def findItalClose : List Char → Option (List Char × List Char)
  | [] => none
  | c :: cs =>
    if c = '\n' then none
    else
      match cs with
      | '*' :: rest => some ([c], rest)
      | _ =>
        match findItalClose cs with
        | some (content, rest) => some (c :: content, rest)
        | none => none

/-- Italic pass: JS `html.replace(/\*(.+?)\*/g, "<em>$1</em>")`. -/
def matchItal (cs : List Char) : Option (List Char × List Char) :=
  match cs with
  | '*' :: rest =>
    match findItalClose rest with
    | some (content, r) => some ("<em>".data ++ content ++ "</em>".data, r)
    | none => none
  | _ => none

/-- Unordered list item pass `^[-•] (.+)$`, per line. -/
def ulLine (line : List Char) : List Char :=
  match line with
  | '-' :: ' ' :: rest =>
    if rest.isEmpty then line else "<li>".data ++ rest ++ "</li>".data
  | '•' :: ' ' :: rest =>
    if rest.isEmpty then line else "<li>".data ++ rest ++ "</li>".data
  | _ => line

/-- One unit of the list-grouping regex `(?:<li>.*<\/li>\n?)`: a
literal `<li>`, greedy non-newline content up to the last `</li>` on
the line, an optional newline.  Returns the consumed text verbatim. -/
def matchLiUnit (cs : List Char) : Option (List Char × List Char) :=
  if leadsWith "<li>".data cs then
    let rest := cs.drop 4
    let seg := rest.takeWhile (· ≠ '\n')
    let tail := rest.dropWhile (· ≠ '\n')
    match splitAtLast "</li>".data seg with
    | some (content, after) =>
      if after.isEmpty then
        match tail with
        | '\n' :: t2 =>
          some ("<li>".data ++ content ++ "</li>".data ++ ['\n'], t2)
        | _ => some ("<li>".data ++ content ++ "</li>".data, tail)
      else some ("<li>".data ++ content ++ "</li>".data, after ++ tail)
    | none => none
  else none

/-- One or more consecutive list-item units. -/
def matchLiUnits : Nat → List Char → Option (List Char × List Char)
  | 0, _ => none
  | fuel + 1, cs =>
    match matchLiUnit cs with
    | some (txt, rest) =>
      match matchLiUnits fuel rest with
      | some (txt2, rest2) => some (txt ++ txt2, rest2)
      | none => some (txt, rest)
    | none => none

/-- List grouping pass: JS
`html.replace(/((?:<li>.*<\/li>\n?)+)/g, "<ul>$1</ul>")`. -/
def matchLiGroup (cs : List Char) : Option (List Char × List Char) :=
  match matchLiUnits cs.length cs with
  | some (txt, rest) => some ("<ul>".data ++ txt ++ "</ul>".data, rest)
  | none => none

/-- Ordered list item pass `^\d+\. (.+)$`, per line (note: the source
has no grouping pass for ordered items). -/
def olLine (line : List Char) : List Char :=
  let ds := line.takeWhile Char.isDigit
  let rest := line.dropWhile Char.isDigit
  if ds.isEmpty then line
  else
    match rest with
    | '.' :: ' ' :: r =>
      if r.isEmpty then line else "<li>".data ++ r ++ "</li>".data
    | _ => line

/-- Blockquote pass `^> (.+)$`, per line (a quote marker in the raw
input was already escaped to `&gt;`, exactly as in the source). -/
def bqLine (line : List Char) : List Char :=
  match line with
  | '>' :: ' ' :: rest =>
    if rest.isEmpty then line
    else "<blockquote>".data ++ rest ++ "</blockquote>".data
  | _ => line

/-- Horizontal rule pass `^---+$`, per line. -/
def hrLine (line : List Char) : List Char :=
  if line.length ≥ 3 && line.all (· = '-') then "<hr>".data else line

/-- Link pass: JS
`html.replace(/\[([^\]]+)\]\(([^)]+)\)/g, "<a href=...>$1</a>")`. -/
def matchLink (cs : List Char) : Option (List Char × List Char) :=
  match cs with
  | '[' :: rest =>
    let txt := rest.takeWhile (· ≠ ']')
    let r1 := rest.dropWhile (· ≠ ']')
    if txt.isEmpty then none
    else
      match r1 with
      | ']' :: '(' :: r2 =>
        let url := r2.takeWhile (· ≠ ')')
        let r3 := r2.dropWhile (· ≠ ')')
        if url.isEmpty then none
        else
          match r3 with
          | ')' :: r4 =>
            some ("<a href=\"".data ++ url
                ++ "\" target=\"_blank\" rel=\"noopener\">".data
                ++ txt ++ "</a>".data, r4)
          | _ => none
      | _ => none
  | _ => none

/-- Paragraph-break pass: JS `html.replace(/\n\n/g, "</p><p>")`. -/
def matchParaBreak (cs : List Char) : Option (List Char × List Char) :=
  match cs with
  | '\n' :: '\n' :: rest => some ("</p><p>".data, rest)
  | _ => none

/-- Soft-break pass: JS `html.replace(/\n/g, "<br>")`. -/
def replaceNl (cs : List Char) : List Char :=
  cs.foldr (fun c acc => if c = '\n' then "<br>".data ++ acc else c :: acc) []

/-- Tag alternation `h[23]|table|ul|ol|pre|blockquote|hr` of the
opening-paragraph cleanup pass, in source order. -/
def pOpenTags : List (List Char) :=
  ["h2".data, "h3".data, "table".data, "ul".data, "ol".data,
   "pre".data, "blockquote".data, "hr".data]

/-- Cleanup pass: JS
`html.replace(/<p><(h[23]|table|ul|ol|pre|blockquote|hr)/g, "<$1")`. -/
def matchPOpen (cs : List Char) : Option (List Char × List Char) :=
  if leadsWith "<p><".data cs then
    let rest := cs.drop 4
    match pOpenTags.find? (fun t => leadsWith t rest) with
    | some t => some ('<' :: t, rest.drop t.length)
    | none => none
  else none

/-- Tag alternation of the closing-paragraph cleanup pass (no `hr`). -/
def pCloseTags : List (List Char) :=
  ["h2".data, "h3".data, "table".data, "ul".data, "ol".data,
   "pre".data, "blockquote".data]

/-- Cleanup pass: JS
`html.replace(/<\/(h[23]|table|ul|ol|pre|blockquote)><\/p>/g, "</$1>")`. -/
def matchPClose (cs : List Char) : Option (List Char × List Char) :=
  if leadsWith "</".data cs then
    let rest := cs.drop 2
    match pCloseTags.find? (fun t => leadsWith (t ++ '>' :: "</p>".data) rest) with
    | some t => some ("</".data ++ t ++ ">".data, rest.drop (t.length + 5))
    | none => none
  else none

/-- Embedding of `renderMarkdown` (chat_widget.js lines 706-775):
the full sequential replace pipeline over the escaped input. -/
def renderMarkdownL (cs : List Char) : List Char :=
  if cs.isEmpty then []
  else
    let h := escapeHtml cs
    let h := runRepl matchCodeBlock h
    let h := runRepl matchInlineCode h
    let h := runRepl matchTable h
    let h := linewise h3Line h
    let h := linewise h2Line h
    let h := runRepl matchBold h
    let h := runRepl matchItal h
    let h := linewise ulLine h
    let h := runRepl matchLiGroup h
    let h := linewise olLine h
    let h := linewise bqLine h
    let h := linewise hrLine h
    let h := runRepl matchLink h
    let h := runRepl matchParaBreak h
    let h := replaceNl h
    let h := runRepl matchPOpen h
    let h := runRepl matchPClose h
    h

/-- `renderMarkdown` on `String`. -/
def renderMarkdown (s : String) : String :=
  String.mk (renderMarkdownL s.data)


/- ===== Widget state and operations (chat_widget.js) ===== -/

/-- One entry of `state.messages`: `{ role, content }`. -/
structure Message where
  role : String
  content : String
deriving DecidableEq

/-- The mutable widget state of chat_widget.js relevant to the turn
engine.  `streamId = none` models `state.streamId === null`;
`errorBanner = ""` models a hidden error banner; `sendDisabled`
models `$sendBtn.disabled`; `typingShown` models the presence of the
typing indicator; `pollTimer` models a stored `setTimeout` handle. -/
structure WidgetState where
  sessionId : Option String
  messages : List Message
  isStreaming : Bool
  streamId : Option String
  pollTimer : Bool
  sendDisabled : Bool
  inputValue : String
  typingShown : Bool
  errorBanner : String
deriving DecidableEq

/-- Network requests and scheduling side effects issued by the
handlers (the `frappe.call` invocations and `setTimeout`). -/
inductive Effect where
  | requestSubmit : String → Option String → Effect
  | requestPoll : String → Nat → Effect
  | requestCloseSession : String → Effect
  | requestSuggestions : Option String → Option String → Effect
  | showChips : List String → Effect
  | beginPolling : Effect
  | scheduleNextPoll : Effect
deriving DecidableEq

/-- The three terminal actions a submit outcome can trigger. -/
inductive TerminalAction where
  | clarificationShown : String → Option (List String) → TerminalAction
  | errorShown : String → TerminalAction
  | streamingStarted : String → String → TerminalAction
deriving DecidableEq

/-- Embedding of `addMessage(role, content)` restricted to its state
effect: append to `state.messages` (DOM rendering and the scroll
signal are presentation-layer effects outside the state). -/
def addMessage (role content : String) (s : WidgetState) : WidgetState :=
  { s with messages := s.messages ++ [⟨role, content⟩] }

/-- Embedding of `loadSuggestions(lastQuery, lastResponse)` argument
marshalling: `last_query: lastQuery || null`,
`last_response: lastResponse ? lastResponse.substring(0, 300) : null`
(the derived `screen_context` is routing-dependent and out of scope). -/
def loadSuggestionsEff (lastQuery lastResponse : Option String) : Effect :=
  Effect.requestSuggestions
    (match lastQuery with
     | some q => if q = "" then none else some q
     | none => none)
    (match lastResponse with
     | some r => if r = "" then none else some (r.take 300)
     | none => none)

/-- Embedding of `finishStreaming(errorMsg)` (chat_widget.js lines
600-613): remove typing, clear the streaming flag and stream handle,
re-enable send, clear the poll timer, show the error banner when the
message is truthy, and refresh suggestions with no arguments. -/
def finishStreaming (errorMsg : String) (s : WidgetState) : WidgetState × List Effect :=
  ({ s with
      typingShown := false
      isStreaming := false
      streamId := none
      sendDisabled := false
      pollTimer := false
      errorBanner := if errorMsg = "" then s.errorBanner else errorMsg },
   [loadSuggestionsEff none none])

/-- Default messages used by the handlers (the `__()` localisation
lookup is the identity here). -/
def somethingWrongMsg : String := "Something went wrong. Please try again."

/-- Default budget-exceeded message. -/
def budgetDefaultMsg : String := "Monthly budget exceeded."

/-- Default submit transport-failure message. -/
def failedConnectMsg : String := "Failed to connect to AI. Please try again."

/-- Poll malformed-body message. -/
def streamLostMsg : String := "Stream connection lost."

/-- Poll transport-failure message. -/
def connectionErrorMsg : String := "Connection error. Please try again."

/-- The synchronous part of `sendMessage()` (chat_widget.js lines
440-464): trim the input; when the trimmed text is empty or a turn is
already streaming, do nothing; otherwise append the user message,
clear the input, disable send, show typing, clear suggestions, set
the streaming flag, and issue the `chat_start` request with
`session_id: state.sessionId || undefined`. -/
def sendMessage (s : WidgetState) : WidgetState × List Effect :=
  let text := trimString s.inputValue
  if text = "" ∨ s.isStreaming then (s, [])
  else
    let s1 := addMessage "user" text s
    let s2 := { s1 with
                  inputValue := ""
                  sendDisabled := true
                  typingShown := true
                  isStreaming := true }
    (s2, [Effect.requestSubmit text
            (match s.sessionId with
             | some v => if v = "" then none else some v
             | none => none)])

/-- The structured body of a `chat_start` response (`r.message`).
String fields use `""` for a JS-falsy/absent value. -/
structure SubmitData where
  needs_clarification : Bool
  clarification_question : String
  clarification_options : Option (List String)
  budget_exceeded : Bool
  error : String
  stream_id : String
  session_id : String
deriving DecidableEq

/-- Outcome of the `chat_start` call: transport failure (with the
`err.message` text, `""` when absent) or a response, where `none`
models `!r || !r.message`. -/
inductive SubmitOutcome where
  | transportError : String → SubmitOutcome
  | response : Option SubmitData → SubmitOutcome
deriving DecidableEq

/-- The classification of a submit outcome in the priority order the
spec states: malformed/missing response, `needs_clarification`,
`budget_exceeded`, `error`, otherwise stream; transport failure is
classified as the error case.  This is the spec-side description the
handler is compared against. -/
def classifySubmitSpec : SubmitOutcome → TerminalAction
  | .transportError m =>
    .errorShown (if m = "" then failedConnectMsg else m)
  | .response none => .errorShown somethingWrongMsg
  | .response (some d) =>
    if d.needs_clarification then
      .clarificationShown d.clarification_question d.clarification_options
    else if d.budget_exceeded then
      .errorShown (if d.error = "" then budgetDefaultMsg else d.error)
    else if d.error ≠ "" then .errorShown d.error
    else .streamingStarted d.stream_id d.session_id

/-- Embedding of the `chat_start` callback/error pair inside
`sendMessage` (chat_widget.js lines 466-509), returning the new
state, the terminal actions taken, and the effects issued. -/
def submitCallback (o : SubmitOutcome) (s : WidgetState) :
    WidgetState × List TerminalAction × List Effect :=
  match o with
  | .transportError m =>
    let msg := if m = "" then failedConnectMsg else m
    let r := finishStreaming msg s
    (r.1, [.errorShown msg], r.2)
  | .response none =>
    let r := finishStreaming somethingWrongMsg s
    (r.1, [.errorShown somethingWrongMsg], r.2)
  | .response (some d) =>
    if d.needs_clarification then
      let s1 := { s with
                    typingShown := false
                    isStreaming := false
                    sendDisabled := false
                    sessionId := some d.session_id }
      let s2 := addMessage "assistant" d.clarification_question s1
      (s2, [.clarificationShown d.clarification_question d.clarification_options],
       match d.clarification_options with
       | some opts => [Effect.showChips opts]
       | none => [])
    else if d.budget_exceeded then
      let msg := if d.error = "" then budgetDefaultMsg else d.error
      let r := finishStreaming msg s
      (r.1, [.errorShown msg], r.2)
    else if d.error ≠ "" then
      let r := finishStreaming d.error s
      (r.1, [.errorShown d.error], r.2)
    else
      ({ s with streamId := some d.stream_id, sessionId := some d.session_id },
       [.streamingStarted d.stream_id d.session_id],
       [Effect.beginPolling])

/-- The structured body of a `stream_poll` response.  String fields
use `""` for a JS-falsy/absent value. -/
structure PollData where
  delta : Bool
  text : String
  text_length : Nat
  tool_status : String
  done : Bool
  error : String
deriving DecidableEq

/-- Outcome of one `stream_poll` call: transport failure, or a
response where `none` models `!r || !r.message`. -/
inductive PollOutcome where
  | transportError : PollOutcome
  | response : Option PollData → PollOutcome
deriving DecidableEq

/-- The closure-local state of `startPolling()`: the `lastLength`
watermark and the assistant bubble (`none` when not yet created;
`some h` holds the bubble's rendered innerHTML). -/
structure PollLocal where
  lastLength : Nat
  bubble : Option String
deriving DecidableEq

/-- The locals as initialised by `startPolling()`:
`let lastLength = 0; let assistantBubble = null;`. -/
def startPolling0 : PollLocal := { lastLength := 0, bubble := none }

/-- The entry guard of `poll()` (chat_widget.js lines 517-526): when
`state.streamId` is falsy, return without issuing a request;
otherwise issue `stream_poll(stream_id, last_length)`. -/
def pollInvoke (s : WidgetState) (loc : PollLocal) :
    WidgetState × PollLocal × List Effect :=
  match s.streamId with
  | none => (s, loc, [])
  | some sid =>
    if sid = "" then (s, loc, [])
    else (s, loc, [Effect.requestPoll sid loc.lastLength])

/-- The tool-status block of the poll callback:
`if (data.tool_status && !data.done) showTyping(data.tool_status)`. -/
def toolStatusStep (d : PollData) (s : WidgetState) : WidgetState :=
  if d.tool_status ≠ "" && !d.done then { s with typingShown := true } else s

/-- The delta block of the poll callback: on a truthy `delta`, remove
typing, create the assistant placeholder bubble on first delta
(appending `{role:"assistant", content:""}` to `state.messages`),
re-render the full text into the bubble, and advance `lastLength` to
`data.text_length`. -/
def deltaStep (d : PollData) (s : WidgetState) (loc : PollLocal) :
    WidgetState × PollLocal :=
  if d.delta then
    let s1 := { s with typingShown := false }
    let s2 := if loc.bubble.isNone then addMessage "assistant" "" s1 else s1
    (s2, { lastLength := d.text_length, bubble := some (renderMarkdown d.text) })
  else (s, loc)

/-- `state.messages.filter(m => m.role === role).pop()`. -/
def lastByRole (role : String) (ms : List Message) : Option Message :=
  (ms.filter (fun m => m.role == role)).getLast?

/-- The done block of the poll callback (chat_widget.js lines
553-585): remove typing; with an error string, append it as the
assistant message only when no bubble exists; without an error,
append the final text when no bubble exists (when a bubble exists the
source only attaches the DOM action bar); clear the streaming flag
and stream handle, re-enable send, and refresh suggestions with the
last user/assistant contents scanned from the end of
`state.messages`. -/
def doneStep (d : PollData) (s : WidgetState) (loc : PollLocal) :
    WidgetState × List Effect :=
  let s1 := { s with typingShown := false }
  let s2 :=
    if d.error ≠ "" then
      if loc.bubble.isNone then addMessage "assistant" d.error s1 else s1
    else if loc.bubble.isNone && d.text ≠ "" then addMessage "assistant" d.text s1
    else s1
  let s3 := { s2 with isStreaming := false, streamId := none, sendDisabled := false }
  (s3, [loadSuggestionsEff ((lastByRole "user" s3.messages).map Message.content)
          ((lastByRole "assistant" s3.messages).map Message.content)])

/-- Embedding of the `stream_poll` callback/error pair (chat_widget.js
lines 527-594): transport failure or a malformed body terminate via
`finishStreaming`; otherwise the tool-status, delta, and done blocks
run in order, and a non-done response schedules the next poll. -/
def pollCallback (o : PollOutcome) (s : WidgetState) (loc : PollLocal) :
    WidgetState × PollLocal × List Effect :=
  match o with
  | .transportError =>
    let r := finishStreaming connectionErrorMsg s
    (r.1, loc, r.2)
  | .response none =>
    let r := finishStreaming streamLostMsg s
    (r.1, loc, r.2)
  | .response (some d) =>
    let s0 := toolStatusStep d s
    let p := deltaStep d s0 loc
    if d.done then
      let q := doneStep d p.1 p.2
      (q.1, p.2, q.2)
    else
      ({ p.1 with pollTimer := true }, p.2, [Effect.scheduleNextPoll])

/-- Embedding of `startNewChat()` (chat_widget.js lines 635-651):
close the current session when one is set, reset the session id and
message list, and refresh suggestions.  The stream handle, streaming
flag, poll timer, send button and input are not touched. -/
def startNewChat (s : WidgetState) : WidgetState × List Effect :=
  ({ s with sessionId := none, messages := [] },
   (match s.sessionId with
    | some sid => if sid = "" then [] else [Effect.requestCloseSession sid]
    | none => []) ++ [loadSuggestionsEff none none])

/-- Embedding of the `get_session` callback in `loadSession`
(chat_widget.js lines 616-633): with a well-formed response, each
returned message is appended via `addMessage` (the DOM is cleared but
`state.messages` is not reset); otherwise nothing happens.  `none`
models a falsy `r`/`r.message`/`r.message.messages`. -/
def loadSessionCallback (r : Option (List Message)) (s : WidgetState) : WidgetState :=
  match r with
  | some msgs => msgs.foldl (fun st m => addMessage m.role m.content st) s
  | none => s

/- ===== Claim theorems ===== -/

/-- C1: for every outcome of the `chat_start` submit call and every
state, the callback/error pair takes exactly one terminal action
(clarification shown, error shown, or streaming started) — never
more, never zero — equal to the spec's priority-ordered
classification (malformed/missing, needs_clarification,
budget_exceeded, error, otherwise stream; transport failure is the
error case); in the stream case the stream id and session id are
adopted and polling is begun. -/
theorem c1_submit_exactly_one_action (o : SubmitOutcome) (s : WidgetState) :
    (submitCallback o s).2.1 = [classifySubmitSpec o] ∧
    (match classifySubmitSpec o with
     | .streamingStarted sid ssid =>
       (submitCallback o s).1.streamId = some sid ∧
       (submitCallback o s).1.sessionId = some ssid ∧
       Effect.beginPolling ∈ (submitCallback o s).2.2
     | _ => True) := by
  cases o with
  | transportError m =>
    simp [submitCallback, classifySubmitSpec, finishStreaming]
  | response r =>
    cases r with
    | none => simp [submitCallback, classifySubmitSpec, finishStreaming]
    | some d =>
      cases h1 : d.needs_clarification with
      | true => simp [submitCallback, classifySubmitSpec, h1]
      | false =>
        cases h2 : d.budget_exceeded with
        | true => simp [submitCallback, classifySubmitSpec, finishStreaming, h1, h2]
        | false =>
          by_cases h3 : d.error = "" <;>
            simp [submitCallback, classifySubmitSpec, finishStreaming, h1, h2, h3]

/-- C2: a `sendMessage` call whose input trims to the empty string,
or made while `state.isStreaming` is true, is a no-op: the state is
unchanged and no request is issued. -/
theorem c2_send_gate_noop (s : WidgetState)
    (h : trimString s.inputValue = "" ∨ s.isStreaming = true) :
    sendMessage s = (s, []) := by
  unfold sendMessage
  rcases h with h | h
  · simp [h]
  · simp [h]

/-- Witness for C2 at a concrete in-flight state. -/
theorem c2_send_gate_noop_witness :
    sendMessage
      { sessionId := some "sess1"
        messages := [⟨"user", "hi"⟩]
        isStreaming := true
        streamId := some "s1"
        pollTimer := true
        sendDisabled := true
        inputValue := "next question"
        typingShown := true
        errorBanner := "" }
      =
      ({ sessionId := some "sess1"
         messages := [⟨"user", "hi"⟩]
         isStreaming := true
         streamId := some "s1"
         pollTimer := true
         sendDisabled := true
         inputValue := "next question"
         typingShown := true
         errorBanner := "" }, []) :=
  c2_send_gate_noop _ (Or.inr rfl)

/-- A concrete idle state shared by several witnesses. -/
def idleSt : WidgetState :=
  { sessionId := some "sess1"
    messages := [⟨"user", "q"⟩, ⟨"assistant", "a"⟩]
    isStreaming := false
    streamId := none
    pollTimer := false
    sendDisabled := false
    inputValue := ""
    typingShown := false
    errorBanner := "" }

/-- A concrete mid-stream state shared by several witnesses. -/
def streamingSt : WidgetState :=
  { sessionId := some "sess1"
    messages := [⟨"user", "q"⟩]
    isStreaming := true
    streamId := some "s1"
    pollTimer := false
    sendDisabled := true
    inputValue := ""
    typingShown := true
    errorBanner := "" }

/-- C3 counterexample: triggering "new chat" while the concrete
mid-stream state `streamingSt` has stream "s1" in flight does NOT set
`state.streamId` to null — it stays `"s1"` — so the next scheduled
poll callback does not find a null handle: it issues a request, and a
delta response mutates state (it appends the assistant placeholder to
the freshly reset message list). -/
theorem c3_newchat_counterexample :
    ((startNewChat streamingSt).1.streamId = some "s1") ∧
    (pollInvoke (startNewChat streamingSt).1 startPolling0
      = ((startNewChat streamingSt).1, startPolling0, [Effect.requestPoll "s1" 0])) ∧
    ((pollCallback
        (.response (some { delta := true, text := "Hello", text_length := 5,
                           tool_status := "", done := false, error := "" }))
        (startNewChat streamingSt).1 startPolling0).1.messages
      = [⟨"assistant", ""⟩]) := by
  decide

/-- C3 amended: `startNewChat` leaves the stream handle and the
streaming flag untouched (it only closes the session, resets the
session id and message list, and refreshes suggestions), so an
in-flight stream is not invalidated; the scheduled poll entry is a
no-op only when the handle is already null (as `finishStreaming` and
stream completion make it). -/
theorem c3_newchat_amended (s : WidgetState) (loc : PollLocal) :
    (startNewChat s).1.streamId = s.streamId ∧
    (startNewChat s).1.isStreaming = s.isStreaming ∧
    (s.streamId = none → pollInvoke s loc = (s, loc, [])) := by
  refine ⟨rfl, rfl, fun h => ?_⟩
  simp [pollInvoke, h]

/-- Witness for C3's amended theorem at a concrete idle state. -/
theorem c3_newchat_amended_witness :
    (startNewChat idleSt).1.streamId = idleSt.streamId ∧
    pollInvoke idleSt startPolling0 = (idleSt, startPolling0, []) := by
  have h := c3_newchat_amended idleSt startPolling0
  exact ⟨h.1, h.2.2 rfl⟩

/-- C4 counterexample: rendering is not monotonic over growing input.
For T = "```\n### H\n" (a heading line inside a still-open code
fence) the render contains a completed heading `<h3>H</h3>`; after
appending the fence terminator "```", the heading structure is gone
from the render of the extended text (the line is re-captured as code
block content). -/
theorem c4_monotonic_counterexample :
    containsSub (renderMarkdown "```\n### H\n") "<h3>H</h3>" = true ∧
    containsSub (renderMarkdown ("```\n### H\n" ++ "```")) "<h3>" = false := by
  decide

/-- C4 amended: the renderer is a pure function of the input string
alone, and growth that appends new content after completed structure
preserves that structure (here: every rendered row of a completed
table survives appending a further bold summary line), but
monotonicity fails in general when the appended text closes a
previously unterminated code fence (see the counterexample). -/
theorem c4_render_amended :
    renderMarkdown "| a | b |\n| c | d |\n"
      = "<table><tr><th>a</th><th>b</th></tr><tr><td>c</td><td>d</td></tr></table>" ∧
    containsSub (renderMarkdown ("| a | b |\n| c | d |\n" ++ "Total: **4**"))
      "<tr><th>a</th><th>b</th></tr>" = true ∧
    containsSub (renderMarkdown ("| a | b |\n| c | d |\n" ++ "Total: **4**"))
      "<tr><td>c</td><td>d</td></tr>" = true ∧
    containsSub (renderMarkdown ("| a | b |\n| c | d |\n" ++ "Total: **4**"))
      "<strong>4</strong>" = true := by
  decide

/-- C6 counterexample: code content is NOT protected from later
passes.  For the input "`**x**`" the inline code span's internal
characters are reprocessed by the bold pass, yielding a strong
element inside the code element instead of the literal asterisks. -/
theorem c6_code_protection_counterexample :
    renderMarkdown "`**x**`" = "<code><strong>x</strong></code>" ∧
    renderMarkdown "`**x**`" ≠ "<code>**x**</code>" := by
  decide

/-- C6 amended: code spans and fenced blocks are spliced into the
output immediately (no placeholders), so their contents are subject
to the later passes; the specific round-trip input
"**bold** and `code`" nevertheless renders a bold span and a code
span correctly, because the code content "code" contains no markup
characters for the later passes to rewrite. -/
theorem c6_render_amended :
    renderMarkdown "**bold** and `code`"
      = "<strong>bold</strong> and <code>code</code>" ∧
    renderMarkdown "```\nplain\n```" = "<pre><code>plain<br></code></pre>" := by
  decide

/-- The reported lengths of the delta-bearing responses of a stream,
in order (`data.text_length` of each response with truthy `delta`). -/
def deltaLengths : List PollOutcome → List Nat
  | [] => []
  | PollOutcome.response (some d) :: os =>
    if d.delta then d.text_length :: deltaLengths os else deltaLengths os
  | _ :: os => deltaLengths os

/-- Whether the poll loop schedules another poll after this outcome
(only a well-formed, non-done response does). -/
def pollContinues : PollOutcome → Bool
  | .response (some d) => !d.done
  | _ => false

/-- The trace of the closure locals over a sequence of poll
responses: each response is processed by `pollCallback`, and the loop
stops after a terminal outcome (transport failure, malformed body, or
`done`). -/
def runPolls : WidgetState → PollLocal → List PollOutcome → List PollLocal
  | _, _, [] => []
  | s, loc, o :: os =>
    let r := pollCallback o s loc
    if pollContinues o then r.2.1 :: runPolls r.1 r.2.1 os
    else [r.2.1]

/-- A list of naturals is non-decreasing (adjacent comparison). -/
def monotoneList : List Nat → Bool
  | [] => true
  | [_] => true
  | a :: b :: t => decide (a ≤ b) && monotoneList (b :: t)

lemma monotoneList_cons_cons (a b : Nat) (l : List Nat) :
    monotoneList (a :: b :: l) = (decide (a ≤ b) && monotoneList (b :: l)) := rfl

lemma monotoneList_self_cons (a : Nat) (l : List Nat)
    (h : monotoneList (a :: l) = true) : monotoneList (a :: a :: l) = true := by
  rw [monotoneList_cons_cons, h]
  simp

/-- The watermark is unchanged by a transport failure. -/
lemma lastLength_transport (s : WidgetState) (loc : PollLocal) :
    ((pollCallback .transportError s loc).2.1).lastLength = loc.lastLength := rfl

/-- The watermark is unchanged by a malformed poll body. -/
lemma lastLength_malformed (s : WidgetState) (loc : PollLocal) :
    ((pollCallback (.response none) s loc).2.1).lastLength = loc.lastLength := rfl

/-- The watermark after one processed well-formed poll response:
advanced to the reported `text_length` exactly when the response
carried a truthy `delta`, unchanged otherwise. -/
lemma lastLength_response (d : PollData) (s : WidgetState) (loc : PollLocal) :
    ((pollCallback (.response (some d)) s loc).2.1).lastLength
      = if d.delta then d.text_length else loc.lastLength := by
  cases hdelta : d.delta <;> cases hdone : d.done <;>
    simp [pollCallback, deltaStep, hdelta, hdone]

/-- Unfolding equation for `runPolls` on a nonempty outcome list. -/
lemma runPolls_cons (s : WidgetState) (loc : PollLocal) (o : PollOutcome)
    (os : List PollOutcome) :
    runPolls s loc (o :: os) =
      if pollContinues o
      then (pollCallback o s loc).2.1
        :: runPolls (pollCallback o s loc).1 (pollCallback o s loc).2.1 os
      else [(pollCallback o s loc).2.1] := rfl

lemma runPolls_monotone (os : List PollOutcome) :
    ∀ (s : WidgetState) (loc : PollLocal),
      monotoneList (loc.lastLength :: deltaLengths os) = true →
      monotoneList (loc.lastLength
        :: (runPolls s loc os).map PollLocal.lastLength) = true := by
  induction os with
  | nil => intro s loc _; rfl
  | cons o os ih =>
    intro s loc h
    cases o with
    | transportError =>
      rw [runPolls_cons, if_neg (by simp [pollContinues]), List.map_cons,
        List.map_nil, lastLength_transport]
      exact monotoneList_self_cons _ _ rfl
    | response r =>
      cases r with
      | none =>
        rw [runPolls_cons, if_neg (by simp [pollContinues]), List.map_cons,
          List.map_nil, lastLength_malformed]
        exact monotoneList_self_cons _ _ rfl
      | some d =>
        cases hdelta : d.delta with
        | false =>
          have hdl : deltaLengths (PollOutcome.response (some d) :: os)
              = deltaLengths os := by simp [deltaLengths, hdelta]
          rw [hdl] at h
          have hl2 : ((pollCallback (PollOutcome.response (some d)) s loc).2.1).lastLength
              = loc.lastLength := by
            rw [lastLength_response, hdelta]
            rfl
          cases hdone : d.done with
          | true =>
            rw [runPolls_cons, if_neg (by simp [pollContinues, hdone]),
              List.map_cons, List.map_nil, hl2]
            exact monotoneList_self_cons _ _ rfl
          | false =>
            rw [runPolls_cons, if_pos (by simp [pollContinues, hdone]),
              List.map_cons, hl2]
            have hrec := ih (pollCallback (PollOutcome.response (some d)) s loc).1
              (pollCallback (PollOutcome.response (some d)) s loc).2.1
              (by rw [hl2]; exact h)
            rw [hl2] at hrec
            exact monotoneList_self_cons _ _ hrec
        | true =>
          have hdl : deltaLengths (PollOutcome.response (some d) :: os)
              = d.text_length :: deltaLengths os := by simp [deltaLengths, hdelta]
          rw [hdl, monotoneList_cons_cons, Bool.and_eq_true] at h
          have hl2 : ((pollCallback (PollOutcome.response (some d)) s loc).2.1).lastLength
              = d.text_length := by
            rw [lastLength_response, hdelta]
            rfl
          cases hdone : d.done with
          | true =>
            rw [runPolls_cons, if_neg (by simp [pollContinues, hdone]),
              List.map_cons, List.map_nil, hl2, monotoneList_cons_cons, h.1]
            rfl
          | false =>
            rw [runPolls_cons, if_pos (by simp [pollContinues, hdone]),
              List.map_cons, hl2, monotoneList_cons_cons, h.1, Bool.true_and]
            have hrec := ih (pollCallback (PollOutcome.response (some d)) s loc).1
              (pollCallback (PollOutcome.response (some d)) s loc).2.1
              (by rw [hl2]; exact h.2)
            rw [hl2] at hrec
            exact hrec

/-- C5: across the processed poll responses of one stream, the
`lastLength` watermark starts at 0 (as `startPolling` initialises it)
and is non-decreasing, provided every delta-bearing response reports
a `text_length` at least as large as each earlier reported one. -/
theorem c5_watermark_monotone (s : WidgetState) (os : List PollOutcome)
    (h : monotoneList (deltaLengths os) = true) :
    monotoneList (startPolling0.lastLength
      :: (runPolls s startPolling0 os).map PollLocal.lastLength) = true := by
  apply runPolls_monotone
  cases hdl : deltaLengths os with
  | nil => rfl
  | cons a t =>
    rw [hdl] at h
    show monotoneList (0 :: a :: t) = true
    rw [monotoneList_cons_cons, h]
    simp

/-- A concrete first delta response (length 2, not done). -/
def pollDelta2 : PollData :=
  { delta := true, text := "He", text_length := 2, tool_status := "", done := false, error := "" }

/-- A concrete final delta response (length 5, done, no error). -/
def pollDone5 : PollData :=
  { delta := true, text := "Hello", text_length := 5, tool_status := "", done := true, error := "" }

/-- Witness for C5 on a concrete two-delta stream (lengths 2 then 5). -/
theorem c5_watermark_monotone_witness :
    monotoneList (deltaLengths
      [PollOutcome.response (some pollDelta2), PollOutcome.response (some pollDone5)]) = true ∧
    monotoneList (startPolling0.lastLength
      :: (runPolls streamingSt startPolling0
            [PollOutcome.response (some pollDelta2), PollOutcome.response (some pollDone5)]).map
           PollLocal.lastLength) = true :=
  ⟨by decide, c5_watermark_monotone streamingSt _ (by decide)⟩

/-- C7: when a poll response has `done` true together with an error
string, the error is appended as the assistant message only when no
streamed text had been rendered (no bubble exists and this response
carries no delta); once a bubble exists — from an earlier delta or
this response's own delta — the stored messages gain at most the
placeholder and the error is not displayed. -/
theorem c7_done_error_partial (s : WidgetState) (loc : PollLocal) (d : PollData)
    (hdone : d.done = true) (herr : d.error ≠ "") :
    ((pollCallback (.response (some d)) s loc).1).messages =
      if loc.bubble.isNone && d.delta then s.messages ++ [⟨"assistant", ""⟩]
      else if loc.bubble.isNone then s.messages ++ [⟨"assistant", d.error⟩]
      else s.messages := by
  cases hb : loc.bubble <;> cases hdelta : d.delta <;>
    simp [pollCallback, toolStatusStep, deltaStep, doneStep, addMessage,
      hdone, herr, hdelta, hb]

/-- Witness for C7: a done-with-error response after a streamed
partial ("Hello" already rendered in the bubble) leaves the stored
messages unchanged — the error is not shown. -/
theorem c7_done_error_partial_witness :
    ((pollCallback
        (.response (some { delta := false, text := "", text_length := 5,
                           tool_status := "", done := true, error := "boom" }))
        streamingSt { lastLength := 5, bubble := some "Hello" }).1).messages
      = streamingSt.messages := by
  have h := c7_done_error_partial streamingSt
    { lastLength := 5, bubble := some "Hello" }
    { delta := false, text := "", text_length := 5,
      tool_status := "", done := true, error := "boom" }
    rfl (by decide)
  simpa using h

/-- The turn-release condition of the error propagation policy:
streaming flag cleared, stream handle null, send input re-enabled. -/
def turnReleased (s : WidgetState) : Prop :=
  s.isStreaming = false ∧ s.streamId = none ∧ s.sendDisabled = false

/-- C8: every turn-terminal error path — missing/malformed submit
response, submit transport failure, budget exceeded, backend error
field, poll transport failure, malformed poll body — clears the
streaming flag, nulls the stream handle, re-enables send, and issues
a suggestion refresh. -/
theorem c8_error_paths_release :
    (∀ s : WidgetState,
      turnReleased (submitCallback (.response none) s).1 ∧
      Effect.requestSuggestions none none ∈ (submitCallback (.response none) s).2.2) ∧
    (∀ (s : WidgetState) (m : String),
      turnReleased (submitCallback (.transportError m) s).1 ∧
      Effect.requestSuggestions none none ∈ (submitCallback (.transportError m) s).2.2) ∧
    (∀ (s : WidgetState) (d : SubmitData),
      d.needs_clarification = false → d.budget_exceeded = true →
      turnReleased (submitCallback (.response (some d)) s).1 ∧
      Effect.requestSuggestions none none ∈ (submitCallback (.response (some d)) s).2.2) ∧
    (∀ (s : WidgetState) (d : SubmitData),
      d.needs_clarification = false → d.budget_exceeded = false → d.error ≠ "" →
      turnReleased (submitCallback (.response (some d)) s).1 ∧
      Effect.requestSuggestions none none ∈ (submitCallback (.response (some d)) s).2.2) ∧
    (∀ (s : WidgetState) (loc : PollLocal),
      turnReleased (pollCallback .transportError s loc).1 ∧
      Effect.requestSuggestions none none ∈ (pollCallback .transportError s loc).2.2) ∧
    (∀ (s : WidgetState) (loc : PollLocal),
      turnReleased (pollCallback (.response none) s loc).1 ∧
      Effect.requestSuggestions none none ∈ (pollCallback (.response none) s loc).2.2) := by
  refine ⟨?_, ?_, ?_, ?_, ?_, ?_⟩ <;> intros <;>
    simp_all [submitCallback, pollCallback, finishStreaming, loadSuggestionsEff,
      turnReleased]

/-- A concrete budget-exceeded submit body. -/
def budgetData : SubmitData :=
  { needs_clarification := false, clarification_question := "",
    clarification_options := none, budget_exceeded := true, error := "",
    stream_id := "", session_id := "" }

/-- A concrete backend-error submit body. -/
def errorData : SubmitData :=
  { needs_clarification := false, clarification_question := "",
    clarification_options := none, budget_exceeded := false, error := "no access",
    stream_id := "", session_id := "" }

/-- Witness for C8 on the budget-exceeded and backend-error paths at
a concrete mid-submit state. -/
theorem c8_error_paths_release_witness :
    (turnReleased (submitCallback (.response (some budgetData)) streamingSt).1 ∧
      Effect.requestSuggestions none none
        ∈ (submitCallback (.response (some budgetData)) streamingSt).2.2) ∧
    (turnReleased (submitCallback (.response (some errorData)) streamingSt).1 ∧
      Effect.requestSuggestions none none
        ∈ (submitCallback (.response (some errorData)) streamingSt).2.2) :=
  ⟨c8_error_paths_release.2.2.1 streamingSt budgetData rfl rfl,
   c8_error_paths_release.2.2.2.1 streamingSt errorData rfl rfl (by decide)⟩

/-- C9 counterexample: a streamed turn ("He" then "Hello" via deltas,
then done) ends with the suggestion refresher invoked with the
assistant half `none` — the stored latest assistant message is still
the empty placeholder, not the reply text "Hello" the claim
requires. -/
theorem c9_suggestions_counterexample :
    ((pollCallback (.response (some pollDone5))
        (pollCallback (.response (some pollDelta2)) streamingSt startPolling0).1
        (pollCallback (.response (some pollDelta2)) streamingSt startPolling0).2.1).2.2
      = [Effect.requestSuggestions (some "q") none]) ∧
    ((pollCallback (.response (some pollDone5))
        (pollCallback (.response (some pollDelta2)) streamingSt startPolling0).1
        (pollCallback (.response (some pollDelta2)) streamingSt startPolling0).2.1).2.2
      ≠ [Effect.requestSuggestions (some "q") (some "Hello")]) ∧
    ((lastByRole "assistant"
        ((pollCallback (.response (some pollDone5))
          (pollCallback (.response (some pollDelta2)) streamingSt startPolling0).1
          (pollCallback (.response (some pollDelta2)) streamingSt startPolling0).2.1).1.messages)).map
        Message.content = some "") := by
  decide

/-- C9 amended: after a done response without an error string the
stream handle is cleared, the streaming flag is false, send is
re-enabled, and the suggestion refresher is invoked with the latest
user and assistant contents found by scanning the stored list from
the end — but when a bubble already existed (the reply streamed via
deltas) the stored messages are unchanged, i.e. the streamed text is
never written back, so the assistant half is the stored placeholder
content rather than the reply text. -/
theorem c9_done_amended (s : WidgetState) (loc : PollLocal) (d : PollData)
    (hdone : d.done = true) (herr : d.error = "") :
    ((pollCallback (.response (some d)) s loc).1).streamId = none ∧
    ((pollCallback (.response (some d)) s loc).1).isStreaming = false ∧
    ((pollCallback (.response (some d)) s loc).1).sendDisabled = false ∧
    (pollCallback (.response (some d)) s loc).2.2
      = [loadSuggestionsEff
          ((lastByRole "user" ((pollCallback (.response (some d)) s loc).1).messages).map
            Message.content)
          ((lastByRole "assistant" ((pollCallback (.response (some d)) s loc).1).messages).map
            Message.content)] ∧
    (loc.bubble.isNone = false →
      ((pollCallback (.response (some d)) s loc).1).messages = s.messages) := by
  cases hb : loc.bubble <;> cases hdelta : d.delta <;>
    simp [pollCallback, toolStatusStep, deltaStep, doneStep, addMessage,
      hdone, herr, hdelta, hb]

/-- Witness for C9's amended theorem: a done response arriving after
a streamed partial releases the turn and leaves messages unchanged. -/
theorem c9_done_amended_witness :
    ((pollCallback (.response (some pollDone5)) streamingSt
        { lastLength := 2, bubble := some "He" }).1).streamId = none ∧
    ((pollCallback (.response (some pollDone5)) streamingSt
        { lastLength := 2, bubble := some "He" }).1).messages = streamingSt.messages := by
  have h := c9_done_amended streamingSt { lastLength := 2, bubble := some "He" }
    pollDone5 rfl rfl
  exact ⟨h.1, h.2.2.2.2 rfl⟩

/-- The implicit handle/flag invariant of C10: whenever the stream
handle is non-null, the streaming flag (the submission gate) is set. -/
def streamInv (s : WidgetState) : Prop :=
  s.streamId ≠ none → s.isStreaming = true

/-- Flags are untouched by replaying a session into the store. -/
lemma loadSession_flags (ms : List Message) : ∀ s : WidgetState,
    (ms.foldl (fun st m => addMessage m.role m.content st) s).streamId = s.streamId ∧
    (ms.foldl (fun st m => addMessage m.role m.content st) s).isStreaming = s.isStreaming := by
  induction ms with
  | nil => intro s; exact ⟨rfl, rfl⟩
  | cons m ms ih =>
    intro s
    simpa [addMessage] using ih (addMessage m.role m.content s)

/-- C10: every handler preserves the handle/flag invariant as one
atomic step.  `sendMessage` preserves it, and when it issues a submit
request it leaves the gate closed with a null handle — which is
exactly the protocol state in which the submit callback then runs, so
the callback's hypotheses are the post-state facts of the gated
`sendMessage`.  The poll callback, `finishStreaming`, `startNewChat`
and the session-load callback preserve the invariant from any state
satisfying it. -/
theorem c10_stream_invariant :
    (∀ s : WidgetState, streamInv s →
      streamInv (sendMessage s).1 ∧
      ((sendMessage s).2 = [] ∨
        ((sendMessage s).1.isStreaming = true ∧ (sendMessage s).1.streamId = none))) ∧
    (∀ (o : SubmitOutcome) (s : WidgetState),
      s.isStreaming = true → s.streamId = none → streamInv (submitCallback o s).1) ∧
    (∀ (o : PollOutcome) (s : WidgetState) (loc : PollLocal),
      streamInv s → streamInv (pollCallback o s loc).1) ∧
    (∀ (m : String) (s : WidgetState), streamInv (finishStreaming m s).1) ∧
    (∀ s : WidgetState, streamInv s → streamInv (startNewChat s).1) ∧
    (∀ (r : Option (List Message)) (s : WidgetState),
      streamInv s → streamInv (loadSessionCallback r s)) := by
  refine ⟨?_, ?_, ?_, ?_, ?_, ?_⟩
  · intro s hinv
    by_cases hgate : trimString s.inputValue = "" ∨ s.isStreaming
    · constructor
      · simpa [sendMessage, hgate] using hinv
      · simp [sendMessage, hgate]
    · have hstream : s.isStreaming = false := by
        cases hb : s.isStreaming with
        | false => rfl
        | true => exact absurd (Or.inr hb) hgate
      have hsid : s.streamId = none := by
        by_contra hne
        rw [hinv hne] at hstream
        exact Bool.noConfusion hstream
      constructor
      · simp [sendMessage, hgate, streamInv, addMessage]
      · right
        simp [sendMessage, hgate, addMessage, hsid]
  · intro o s hstream hsid
    cases o with
    | transportError => simp [submitCallback, finishStreaming, streamInv]
    | response r =>
      cases r with
      | none => simp [submitCallback, finishStreaming, streamInv]
      | some d =>
        by_cases h1 : d.needs_clarification = true
        · simp [submitCallback, h1, streamInv, addMessage, hsid]
        · by_cases h2 : d.budget_exceeded = true
          · simp [submitCallback, h1, h2, finishStreaming, streamInv]
          · by_cases h3 : d.error = ""
            · simp [submitCallback, h1, h2, h3, streamInv, hstream]
            · simp [submitCallback, h1, h2, h3, finishStreaming, streamInv]
  · intro o s loc hinv
    cases o with
    | transportError => simp [pollCallback, finishStreaming, streamInv]
    | response r =>
      cases r with
      | none => simp [pollCallback, finishStreaming, streamInv]
      | some d =>
        cases hdone : d.done with
        | true =>
          by_cases hts : d.tool_status = "" <;>
            cases hb : loc.bubble <;> cases hdelta : d.delta <;>
              by_cases herr : d.error = "" <;>
                simp [pollCallback, toolStatusStep, deltaStep, doneStep, addMessage,
                  hdone, hdelta, hb, hts, herr, streamInv]
        | false =>
          by_cases hts : d.tool_status = "" <;>
            cases hb : loc.bubble <;> cases hdelta : d.delta <;>
              simpa [pollCallback, toolStatusStep, deltaStep, addMessage,
                hdone, hdelta, hb, hts, streamInv] using hinv
  · intro m s
    simp [finishStreaming, streamInv]
  · intro s hinv
    simpa [startNewChat, streamInv] using hinv
  · intro r s hinv
    cases r with
    | none => exact hinv
    | some msgs =>
      intro hne
      have hf := loadSession_flags msgs s
      rw [loadSessionCallback] at hne ⊢
      rw [hf.2]
      exact hinv (by rw [← hf.1]; exact hne)

/-- A concrete mid-submit state (gate closed, no handle yet). -/
def sendingSt : WidgetState :=
  { sessionId := some "sess1"
    messages := [⟨"user", "q"⟩]
    isStreaming := true
    streamId := none
    pollTimer := false
    sendDisabled := true
    inputValue := ""
    typingShown := true
    errorBanner := "" }

/-- Witness for C10 at concrete states on four of the handlers. -/
theorem c10_stream_invariant_witness :
    streamInv (sendMessage idleSt).1 ∧
    streamInv (submitCallback (.response none) sendingSt).1 ∧
    streamInv (pollCallback .transportError streamingSt startPolling0).1 ∧
    streamInv (startNewChat streamingSt).1 :=
  ⟨(c10_stream_invariant.1 idleSt (fun h => absurd rfl h)).1,
   c10_stream_invariant.2.1 (.response none) sendingSt rfl rfl,
   c10_stream_invariant.2.2.1 .transportError streamingSt startPolling0 (fun _ => rfl),
   c10_stream_invariant.2.2.2.2.1 streamingSt (fun _ => rfl)⟩
